import Mathlib

/-!
Shallow embedding of the CSMS mobile shell (src/frontend/App.js, final
revision; the earlier revision's navigation interceptor and filename
derivation are embedded as well under a `_v1` suffix). Stateful handlers
are embedded as pure functions from an explicit environment (the results of
the external platform calls) to the trace of observable events they emit
(state writes, toasts, script injections, permission requests), in the
order the single-threaded event loop performs them.
-/

namespace CSMS

/-- Substring test on character lists: `listContainsSub pat s` is true when
`pat` occurs contiguously in `s` (the embedding of JavaScript
`String.prototype.includes`). -/
def listContainsSub (pat : List Char) : List Char → Bool
  | [] => pat.isEmpty
  | c :: t => pat.isPrefixOf (c :: t) || listContainsSub pat t

/-- JavaScript `url.includes(pat)`. -/
def strContainsSub (s pat : String) : Bool :=
  listContainsSub pat.data s.data

/-- JavaScript `url.startsWith(pat)`. -/
def strStartsWith (s pat : String) : Bool :=
  pat.data.isPrefixOf s.data

/-- JavaScript `url.endsWith(pat)`. -/
def strEndsWith (s pat : String) : Bool :=
  pat.data.isSuffixOf s.data

/-- JavaScript `s.split(sep)` on one-character separators, over character
lists. -/
def splitOnChar (sep : Char) : List Char → List (List Char)
  | [] => [[]]
  | c :: t =>
    let r := splitOnChar sep t
    if c = sep then [] :: r
    else
      match r with
      | [] => [[c]]
      | h :: t2 => (c :: h) :: t2

/-- The configured application origin (`WEB_APP_URL` in App.js). -/
def WEB_APP_URL : String := "https://ade-basirwfrd-csms-backend.hf.space"

/-- Toast severity (`type` in App.js: 'info', 'success', 'error'). -/
inductive Severity
  | info
  | success
  | error
  deriving DecidableEq

/-- Outcome of a navigation interception: `allow` embeds `return true`;
`download` embeds `handleDownload(url); return false`; `openExternal`
embeds `Linking.openURL(url); return false` (earlier revision only). -/
inductive NavDecision
  | allow
  | download
  | openExternal
  deriving DecidableEq

/-- Embedding of `handleShouldStartLoadWithRequest` (final revision,
App.js): the decision ladder over the request URL. -/
def handleShouldStartLoadWithRequest (url : String) : NavDecision :=
  if strContainsSub url "/projects/" && strContainsSub url "/report" then
    NavDecision.download
  else if strStartsWith url "blob:" || strContainsSub url "download=" || strEndsWith url ".pdf" then
    NavDecision.download
  else if strStartsWith url WEB_APP_URL || strStartsWith url "about:" || url == "about:blank" then
    NavDecision.allow
  else
    NavDecision.allow

/-- Embedding of `handleShouldStartLoadWithRequest` from the earlier
revision of App.js, which hands other http(s) URLs to the OS browser. -/
def handleShouldStartLoadWithRequest_v1 (url : String) : NavDecision :=
  if strContainsSub url "/projects/" && strContainsSub url "/report" then
    NavDecision.download
  else if strStartsWith url "blob:" || strContainsSub url "download=" || strEndsWith url ".pdf" then
    NavDecision.download
  else if strStartsWith url WEB_APP_URL || strStartsWith url "about:" then
    NavDecision.allow
  else if strStartsWith url "http://" || strStartsWith url "https://" then
    NavDecision.openExternal
  else
    NavDecision.allow

/-- Filename derivation of the final revision's `handleDownload`: the
`urlParts` split is computed but never consulted; the name is always the
fixed prefix plus the current date plus '.pdf'. -/
def fileName (today : String) (url : String) : String :=
  let _urlParts := splitOnChar '/' url.data
  "CSMS_Report_" ++ today ++ ".pdf"

/-- Filename derivation of the earlier revision's `handleDownload`: the last
URL segment when nonempty, defaulting to 'report.pdf'; replaced by
'CSMS_Report.pdf' when it carries no dot. -/
def fileName_v1 (url : String) : String :=
  let urlParts := splitOnChar '/' url.data
  let raw := urlParts.getLastD []
  let filename := if raw.isEmpty then "report.pdf" else String.mk raw
  if filename.data.contains '.' then filename else "CSMS_Report.pdf"

/-- Result of `FileSystem.downloadAsync`: it resolved with an HTTP status
code, or it rejected (transport error) with a message (the JS error's
`message`, possibly empty). -/
inductive FetchResult
  | resolved (status : Nat)
  | thrown (message : String)
  deriving DecidableEq

/-- Environment of one `handleDownload` run: the behavior of each external
platform call it makes. `persistOk` is whether the MediaLibrary save
sequence (createAsset / getAlbum / addAssets / createAlbum) runs without
throwing; `shareThrow` is the rejection, if any, of `Sharing.shareAsync`
on the fallback path. -/
structure DownloadEnv where
  fetch : FetchResult
  persistOk : Bool
  sharingAvailable : Bool
  shareThrow : Option String
  cacheDirectory : String
  today : String
  deriving DecidableEq

/-- Observable events of one `handleDownload` run, in order. -/
inductive DlEvent
  | setDownloading (b : Bool)
  | toast (message : String) (sev : Severity)
  | fetchStart (url : String) (path : String)
  | persistAsset
  | share
  deriving DecidableEq

/-- JavaScript `err.message || 'Unknown error'` (an empty message is falsy). -/
def errMessage (m : String) : String :=
  if m = "" then "Unknown error" else m

/-- Events of `handleDownload` after `downloadAsync` returns or throws: the
status check, the MediaLibrary persistence attempt with its share fallback,
and the catch-block toast of the outer try. -/
def downloadBody (env : DownloadEnv) : List DlEvent :=
  match env.fetch with
  | FetchResult.thrown m =>
    [DlEvent.toast ("Download error: " ++ errMessage m) Severity.error]
  | FetchResult.resolved status =>
    if status = 200 then
      if env.persistOk then
        [DlEvent.persistAsset, DlEvent.toast "Report saved to Downloads!" Severity.success]
      else if env.sharingAvailable then
        match env.shareThrow with
        | none => [DlEvent.share, DlEvent.toast "Report ready to save" Severity.success]
        | some m =>
          [DlEvent.share, DlEvent.toast ("Download error: " ++ errMessage m) Severity.error]
      else []
    else
      [DlEvent.toast "Download failed. Please try again." Severity.error]

/-- Embedding of `handleDownload` (final revision) as its event trace: set
the busy flag, show the progress toast, call `downloadAsync` on the cache
path, run the branch ladder, and clear the busy flag in the `finally`. -/
def handleDownload (env : DownloadEnv) (url : String) : List DlEvent :=
  DlEvent.setDownloading true ::
  DlEvent.toast "Downloading report..." Severity.info ::
  DlEvent.fetchStart url (env.cacheDirectory ++ fileName env.today url) ::
  (downloadBody env ++ [DlEvent.setDownloading false])

/-- Whether an event is a write to the `downloading` busy flag. -/
def isSetDownloading : DlEvent → Bool
  | DlEvent.setDownloading _ => true
  | _ => false

/-- The toasts of a download trace, in order. -/
def toastsOf (es : List DlEvent) : List (String × Severity) :=
  es.filterMap fun e =>
    match e with
    | DlEvent.toast m s => some (m, s)
    | _ => none

/-- The toasts after the initial progress toast: the terminal outcome
toasts of the run. -/
def terminalToasts (es : List DlEvent) : List (String × Severity) :=
  (toastsOf es).drop 1

/-- Result of one native picker call (`launchImageLibraryAsync`,
`getDocumentAsync`, `launchCameraAsync`): the user cancelled, it resolved
non-cancelled but with no asset, the platform call threw, or it produced
an asset with a `uri` and a `name`. -/
inductive PickerOutcome
  | cancelled
  | noAsset
  | thrown
  | picked (uri : String) (name : String)
  deriving DecidableEq

/-- Environment of one `handleMessage` run: what each picker would return
if invoked, and whether `webViewRef.current` is non-null (the optional
chaining before `injectJavaScript`). -/
structure BridgeEnv where
  imagePick : PickerOutcome
  filePick : PickerOutcome
  cameraPick : PickerOutcome
  refAvailable : Bool
  deriving DecidableEq

/-- An inbound bridge payload as `JSON.parse` sees it: not valid JSON
(parse throws), valid JSON whose `type` field is the given string, or
valid JSON with no `type` field. -/
inductive BridgePayload
  | notJson
  | jsonWithType (ty : String)
  | jsonNoType
  deriving DecidableEq

/-- Observable events of one `handleMessage` run: a `BridgeResponse`
injection (the injected script posts `message` of the given type, `uri`
and optional `name` to the given target origin), a toast, or the
catch-block console log. -/
inductive MsgEvent
  | inject (ty : String) (uri : String) (name : Option String) (targetOrigin : String)
  | toast (message : String) (sev : Severity)
  | logCaught
  deriving DecidableEq

/-- Embedding of `handleMessage` (final revision) as its event trace:
decode-or-log, dispatch on `data.type`, and on a non-cancelled picker
result with an asset inject the response via `window.postMessage(..., '*')`
and show a success toast. -/
def handleMessage (env : BridgeEnv) (payload : BridgePayload) : List MsgEvent :=
  match payload with
  | BridgePayload.notJson => [MsgEvent.logCaught]
  | BridgePayload.jsonNoType => []
  | BridgePayload.jsonWithType ty =>
    if ty = "pickImage" then
      match env.imagePick with
      | PickerOutcome.picked uri _ =>
        (if env.refAvailable then [MsgEvent.inject "imageSelected" uri none "*"] else []) ++
        [MsgEvent.toast "Photo selected!" Severity.success]
      | PickerOutcome.thrown => [MsgEvent.logCaught]
      | _ => []
    else if ty = "pickFile" then
      match env.filePick with
      | PickerOutcome.picked uri name =>
        (if env.refAvailable then [MsgEvent.inject "fileSelected" uri (some name) "*"] else []) ++
        [MsgEvent.toast "File selected!" Severity.success]
      | PickerOutcome.thrown => [MsgEvent.logCaught]
      | _ => []
    else if ty = "takePhoto" then
      match env.cameraPick with
      | PickerOutcome.picked uri _ =>
        (if env.refAvailable then [MsgEvent.inject "photoTaken" uri none "*"] else []) ++
        [MsgEvent.toast "Photo captured!" Severity.success]
      | PickerOutcome.thrown => [MsgEvent.logCaught]
      | _ => []
    else []

/-- Whether a bridge event is a `BridgeResponse` injection. -/
def isInject : MsgEvent → Bool
  | MsgEvent.inject _ _ _ _ => true
  | _ => false

/-- Whether a bridge event is a toast. -/
def isMsgToast : MsgEvent → Bool
  | MsgEvent.toast _ _ => true
  | _ => false

/-- State of the exit-confirmation machinery: `backPressCount` (0 = Idle,
1 = Armed), whether a live (not yet cancelled) disarm timer is pending in
`backPressTimer.current`, and whether `BackHandler.exitApp()` has been
called. -/
structure BackSys where
  count : Nat
  timerPending : Bool
  exited : Bool
  deriving DecidableEq

/-- The initial state: Idle, no timer, process alive. -/
def backInit : BackSys := { count := 0, timerPending := false, exited := false }

/-- An external stimulus: a hardware back-press, or the disarm timeout
window elapsing (the scheduled `setTimeout` reaching its fire time). -/
inductive BackEvent
  | press
  | timerFire
  deriving DecidableEq

/-- The `hardwareBackPress` handler body alone: a press with
`backPressCount === 0` sets the count to 1, shows the confirmation toast
and stores a 2000 ms disarm timer in `backPressTimer.current`; a press
otherwise calls `BackHandler.exitApp()`. -/
def backPressHandler (s : BackSys) : BackSys :=
  if s.count = 0 then
    { count := 1, timerPending := true, exited := s.exited }
  else
    { s with exited := true }

/-- The effect cleanup: the back-press effect lists `[backPressCount]` as
its dependencies, so whenever `backPressCount` changes the cleanup runs,
removes the listener and `clearTimeout`s the handle stored in
`backPressTimer.current`. -/
def effectCleanup (s : BackSys) : BackSys :=
  { s with timerPending := false }

/-- One observed back-press of the program: the handler runs to
completion, and when it changed `backPressCount` (the arming branch) React
re-renders and re-runs the effect, whose cleanup cancels the disarm timer
the handler just scheduled; the exit branch changes no state, so no
cleanup runs. -/
def backPressStep (s : BackSys) : BackSys :=
  if s.count = 0 then effectCleanup (backPressHandler s) else backPressHandler s

/-- The disarm timeout elapsing: the callback `setBackPressCount(0)` runs
only if the scheduled timer is still live; a cancelled timer's callback
never runs, leaving the state untouched. -/
def disarmTimerFire (s : BackSys) : BackSys :=
  if s.timerPending then { s with count := 0, timerPending := false } else s

/-- Run of the machinery over a stimulus sequence; two presses with no
`timerFire` between them are two presses within the timeout window. -/
def backRun (s : BackSys) : List BackEvent → BackSys
  | [] => s
  | BackEvent.press :: es => backRun (backPressStep s) es
  | BackEvent.timerFire :: es => backRun (disarmTimerFire s) es

/-- The current toast record (`toast` state in App.js). -/
structure ToastSt where
  visible : Bool
  message : String
  ty : Severity
  deriving DecidableEq

/-- The cleared toast record written by every hide-timer callback. -/
def clearedToast : ToastSt := { visible := false, message := "", ty := Severity.info }

/-- Toast state together with the pending hide timers' fire times;
`showToast` never stores or clears a timer handle, so every scheduled
clear stays pending until it fires. -/
structure ToastSys where
  toast : ToastSt
  timers : List Nat
  deriving DecidableEq

/-- Embedding of `showToast(message, type, duration)` called at time `now`:
write the new toast record and schedule one more clear at `now + duration`,
leaving all previously scheduled clears pending. -/
def showToast (now : Nat) (message : String) (ty : Severity) (duration : Nat)
    (s : ToastSys) : ToastSys :=
  { toast := { visible := true, message := message, ty := ty },
    timers := s.timers ++ [now + duration] }

/-- A pending hide timer fires: its callback unconditionally writes the
cleared toast record (the callback holds no guard against a newer toast). -/
def toastTimerFire (t : Nat) (s : ToastSys) : ToastSys :=
  if t ∈ s.timers then { toast := clearedToast, timers := s.timers.erase t } else s

/-- Result of one permission request: granted, any non-granted status, or
the platform call threw. -/
inductive PermRes
  | granted
  | denied
  | thrown
  deriving DecidableEq

/-- Environment of one `requestPermissions` run: the result of each of the
three platform permission requests, in source order. -/
structure PermEnv where
  media : PermRes
  camera : PermRes
  mediaPicker : PermRes
  deriving DecidableEq

/-- Observable events of one `requestPermissions` run. -/
inductive PermEvent
  | request (capability : String)
  | toast (message : String) (sev : Severity)
  | logCaught
  deriving DecidableEq

/-- Embedding of the startup `requestPermissions` effect: one try block
wraps all three awaited requests, so a thrown request aborts the rest and
lands in the catch (log only); a non-granted status only decides the
toasts. -/
def requestPermissions (env : PermEnv) : List PermEvent :=
  match env.media with
  | PermRes.thrown => [PermEvent.request "mediaLibrary", PermEvent.logCaught]
  | ms =>
    let e1 := [PermEvent.request "mediaLibrary"] ++
      (if ms = PermRes.denied then
        [PermEvent.toast "Storage permission needed to save files" Severity.error]
      else []) ++ [PermEvent.request "camera"]
    match env.camera with
    | PermRes.thrown => e1 ++ [PermEvent.logCaught]
    | _ =>
      let e2 := e1 ++ [PermEvent.request "mediaPicker"]
      match env.mediaPicker with
      | PermRes.thrown => e2 ++ [PermEvent.logCaught]
      | _ => e2 ++
        (if ms = PermRes.granted then
          [PermEvent.toast "Ready to use CSMS" Severity.success]
        else [])

/-- Whether a permission event is a request to the platform. -/
def isPermRequest : PermEvent → Bool
  | PermEvent.request _ => true
  | _ => false

/-- C1: every navigation request whose URL contains both the
project-scoped segment and the report marker is decided
Suppress-and-Download (the interceptor calls `handleDownload` and returns
false), never Allow, in both revisions of the interceptor. -/
theorem nav_report_pattern_suppresses_and_downloads (url : String)
    (h1 : strContainsSub url "/projects/" = true)
    (h2 : strContainsSub url "/report" = true) :
    handleShouldStartLoadWithRequest url = NavDecision.download ∧
    handleShouldStartLoadWithRequest url ≠ NavDecision.allow ∧
    handleShouldStartLoadWithRequest_v1 url = NavDecision.download := by
  refine ⟨?_, ?_, ?_⟩ <;>
    simp [handleShouldStartLoadWithRequest, handleShouldStartLoadWithRequest_v1, h1, h2]

/-- Witness for C1 at the report URL of project 42. -/
theorem nav_report_pattern_witness :
    handleShouldStartLoadWithRequest
        "https://ade-basirwfrd-csms-backend.hf.space/projects/42/report" =
      NavDecision.download ∧
    handleShouldStartLoadWithRequest
        "https://ade-basirwfrd-csms-backend.hf.space/projects/42/report" ≠
      NavDecision.allow ∧
    handleShouldStartLoadWithRequest_v1
        "https://ade-basirwfrd-csms-backend.hf.space/projects/42/report" =
      NavDecision.download :=
  nav_report_pattern_suppresses_and_downloads
    "https://ade-basirwfrd-csms-backend.hf.space/projects/42/report"
    (by decide) (by decide)

/-- Helper for C2: no branch after the fetch writes the busy flag. -/
theorem downloadBody_no_setDownloading (env : DownloadEnv) :
    ∀ e ∈ downloadBody env, isSetDownloading e = false := by
  intro e he
  rcases env with ⟨fetch, p, sh, st, cd, td⟩
  rcases fetch with status | m
  · by_cases h200 : status = 200
    · cases p
      · cases sh
        · simp [downloadBody, h200] at he
        · rcases st with _ | m2 <;>
            · simp [downloadBody, h200] at he
              rcases he with rfl | rfl <;> rfl
      · simp [downloadBody, h200] at he
        rcases he with rfl | rfl <;> rfl
    · simp [downloadBody, h200] at he
      subst he; rfl
  · simp [downloadBody] at he
    subst he; rfl

/-- C2: in every `handleDownload` run, whatever the fetch, persistence,
share and error behavior, the trace is exactly one busy-flag set to true,
then fetch/persist/share/toast events none of which touches the busy flag,
then one busy-flag clear as the last event — so the flag is true for the
whole interval between pipeline start and the terminal toast and false
immediately after, on every exit path. -/
theorem download_busy_flag_bracketed (env : DownloadEnv) (url : String) :
    ∃ mid, handleDownload env url =
        DlEvent.setDownloading true :: (mid ++ [DlEvent.setDownloading false]) ∧
      ∀ e ∈ mid, isSetDownloading e = false := by
  refine ⟨DlEvent.toast "Downloading report..." Severity.info ::
    DlEvent.fetchStart url (env.cacheDirectory ++ fileName env.today url) ::
    downloadBody env, by simp [handleDownload], ?_⟩
  intro e he
  simp only [List.mem_cons] at he
  rcases he with rfl | rfl | he
  · rfl
  · rfl
  · exact downloadBody_no_setDownloading env e he

/-- C3: the first half of the claim holds — an arming press does not exit
and a second press within the window exits — but the disarm never
happens: the handler does schedule the disarm timer, yet the effect
cleanup triggered by the very count change it made cancels that timer
before it can fire, so the timeout elapsing changes nothing, the machine
stays Armed, and a later lone back-press after silence past the window
exits the process, contradicting the claim. -/
theorem back_press_missing_disarm :
    (backPressStep backInit).exited = false ∧
    (backPressStep backInit).count = 1 ∧
    (backRun backInit [BackEvent.press, BackEvent.press]).exited = true ∧
    (backPressHandler backInit).timerPending = true ∧
    (effectCleanup (backPressHandler backInit)).timerPending = false ∧
    (backPressStep backInit).timerPending = false ∧
    backRun backInit [BackEvent.press, BackEvent.timerFire] =
      backRun backInit [BackEvent.press] ∧
    (backRun backInit [BackEvent.press, BackEvent.timerFire]).count = 1 ∧
    (backRun backInit [BackEvent.press, BackEvent.timerFire, BackEvent.press]).exited =
      true := by
  decide

/-- C4: `showToast` never cancels the pending hide timer of the toast it
replaces, so the stale timer fires and blanks the newer toast early: after
showing toast A at time 0 and toast B at time 1000 (each with duration
3000), the replacement itself works — the state shows B — but A's clear
action is still pending at 3000 and, firing there, hides B 1000 ms before
B's own expiry at 4000. -/
theorem toast_stale_timer_fires_early :
    (showToast 1000 "B" Severity.success 3000
        (showToast 0 "A" Severity.info 3000 { toast := clearedToast, timers := [] })).toast =
      { visible := true, message := "B", ty := Severity.success } ∧
    (showToast 1000 "B" Severity.success 3000
        (showToast 0 "A" Severity.info 3000 { toast := clearedToast, timers := [] })).timers =
      [3000, 4000] ∧
    3000 < 1000 + 3000 ∧
    (toastTimerFire 3000 (showToast 1000 "B" Severity.success 3000
        (showToast 0 "A" Severity.info 3000 { toast := clearedToast, timers := [] }))).toast =
      clearedToast := by
  decide

/-- C6 counterexample: for a URL whose path embeds the name `invoice.pdf`
(a recognizable extension), the final revision still derives the
synthesized dated name and not the embedded one; the earlier revision's
derivation did prefer the embedded name. -/
theorem fileName_ignores_url_counterexample :
    fileName "2026-10-11"
        "https://ade-basirwfrd-csms-backend.hf.space/files/invoice.pdf" ≠ "invoice.pdf" ∧
    fileName "2026-10-11"
        "https://ade-basirwfrd-csms-backend.hf.space/files/invoice.pdf" =
      "CSMS_Report_2026-10-11.pdf" ∧
    fileName_v1 "https://ade-basirwfrd-csms-backend.hf.space/files/invoice.pdf" =
      "invoice.pdf" := by
  decide

/-- C6 amended: the final revision's filename is always synthesized from
the fixed prefix plus the current date with the fixed '.pdf' extension,
for every URL — the URL (and any name embedded in it) is never consulted. -/
theorem fileName_always_synthesized_amended (today url1 url2 : String) :
    fileName today url1 = "CSMS_Report_" ++ today ++ ".pdf" ∧
    fileName today url1 = fileName today url2 :=
  ⟨rfl, rfl⟩

/-- Helper for C5: the toasts after the initial progress toast are exactly
the toasts of the post-fetch branch ladder. -/
theorem terminalToasts_handleDownload (env : DownloadEnv) (url : String) :
    terminalToasts (handleDownload env url) = toastsOf (downloadBody env) := by
  simp [terminalToasts, toastsOf, handleDownload]

/-- C5 counterexample: a run whose fetch succeeds (HTTP 200) but whose
MediaLibrary persistence throws while sharing is unavailable reaches its
terminal outcome with no terminal toast at all — only the initial progress
toast is ever shown. -/
theorem download_silent_no_toast_counterexample :
    terminalToasts (handleDownload
      { fetch := FetchResult.resolved 200, persistOk := false, sharingAvailable := false,
        shareThrow := none, cacheDirectory := "file:///cache/", today := "2026-10-11" }
      "https://ade-basirwfrd-csms-backend.hf.space/projects/42/report") = [] ∧
    toastsOf (handleDownload
      { fetch := FetchResult.resolved 200, persistOk := false, sharingAvailable := false,
        shareThrow := none, cacheDirectory := "file:///cache/", today := "2026-10-11" }
      "https://ade-basirwfrd-csms-backend.hf.space/projects/42/report") =
      [("Downloading report...", Severity.info)] := by
  decide

/-- C5 amended: every `handleDownload` run emits exactly one terminal
toast — a Success toast exactly when the fetch returned 200 and either
persistence or the share fallback succeeded, an Error toast otherwise —
except the run whose fetch returns 200 but whose persistence fails with
sharing unavailable, which emits no terminal toast. -/
theorem download_terminal_toast_amended (env : DownloadEnv) (url : String) :
    ((env.fetch = FetchResult.resolved 200 ∧ env.persistOk = false ∧
        env.sharingAvailable = false) →
      terminalToasts (handleDownload env url) = []) ∧
    (¬(env.fetch = FetchResult.resolved 200 ∧ env.persistOk = false ∧
        env.sharingAvailable = false) →
      ∃ m s, terminalToasts (handleDownload env url) = [(m, s)] ∧
        (s = Severity.success ↔
          env.fetch = FetchResult.resolved 200 ∧
            (env.persistOk = true ∨
              (env.sharingAvailable = true ∧ env.shareThrow = none)))) := by
  simp only [terminalToasts_handleDownload]
  rcases env with ⟨fetch, p, sh, st, cd, td⟩
  rcases fetch with status | m
  · by_cases h200 : status = 200
    · subst h200
      cases p
      · cases sh
        · exact ⟨fun _ => by simp [downloadBody, toastsOf],
            fun hn => absurd ⟨rfl, rfl, rfl⟩ hn⟩
        · rcases st with _ | m2
          · exact ⟨fun h => by simp at h,
              fun _ => ⟨"Report ready to save", Severity.success,
                by simp [downloadBody, toastsOf], by simp⟩⟩
          · exact ⟨fun h => by simp at h,
              fun _ => ⟨"Download error: " ++ errMessage m2, Severity.error,
                by simp [downloadBody, toastsOf], by simp⟩⟩
      · exact ⟨fun h => by simp at h,
          fun _ => ⟨"Report saved to Downloads!", Severity.success,
            by simp [downloadBody, toastsOf], by simp⟩⟩
    · refine ⟨fun h => absurd h.1 (by simp [h200]), fun _ => ?_⟩
      exact ⟨"Download failed. Please try again.", Severity.error,
        by simp [downloadBody, toastsOf, h200], by simp [h200]⟩
  · refine ⟨fun h => by simp at h, fun _ => ?_⟩
    exact ⟨"Download error: " ++ errMessage m, Severity.error,
      by simp [downloadBody, toastsOf], by simp⟩

/-- Witness for C5's amended theorem on the silent path. -/
theorem download_terminal_toast_amended_witness :
    terminalToasts (handleDownload
      { fetch := FetchResult.resolved 200, persistOk := false, sharingAvailable := false,
        shareThrow := none, cacheDirectory := "c", today := "d" } "u") = [] :=
  (download_terminal_toast_amended
    { fetch := FetchResult.resolved 200, persistOk := false, sharingAvailable := false,
      shareThrow := none, cacheDirectory := "c", today := "d" } "u").1
    ⟨rfl, rfl, rfl⟩

/-- C7: a payload that is not valid JSON, or valid JSON whose kind is not
pickImage, pickFile or takePhoto, produces no injection and no toast —
the unrecognized kind falls through to an empty trace and the parse
failure only reaches the catch-block log — and the handler is a total
function, so no exception reaches its caller. -/
theorem bridge_malformed_ignored (env : BridgeEnv) (ty : String)
    (h1 : ty ≠ "pickImage") (h2 : ty ≠ "pickFile") (h3 : ty ≠ "takePhoto") :
    handleMessage env (BridgePayload.jsonWithType ty) = [] ∧
    handleMessage env BridgePayload.notJson = [MsgEvent.logCaught] ∧
    handleMessage env BridgePayload.jsonNoType = [] ∧
    isInject MsgEvent.logCaught = false ∧ isMsgToast MsgEvent.logCaught = false := by
  refine ⟨?_, rfl, rfl, rfl, rfl⟩
  simp [handleMessage, h1, h2, h3]

/-- Witness for C7 at the spec's scenario payload kind 'unknown'. -/
theorem bridge_malformed_ignored_witness :
    handleMessage
        ⟨PickerOutcome.cancelled, PickerOutcome.cancelled, PickerOutcome.cancelled, true⟩
        (BridgePayload.jsonWithType "unknown") = [] ∧
    handleMessage
        ⟨PickerOutcome.cancelled, PickerOutcome.cancelled, PickerOutcome.cancelled, true⟩
        BridgePayload.notJson = [MsgEvent.logCaught] ∧
    handleMessage
        ⟨PickerOutcome.cancelled, PickerOutcome.cancelled, PickerOutcome.cancelled, true⟩
        BridgePayload.jsonNoType = [] ∧
    isInject MsgEvent.logCaught = false ∧ isMsgToast MsgEvent.logCaught = false :=
  bridge_malformed_ignored _ "unknown" (by decide) (by decide) (by decide)

/-- C8: when the user cancels the picker, each of the three bridge
invocations produces an empty trace: zero BridgeResponse injections and
zero toasts. -/
theorem bridge_cancel_noop (env : BridgeEnv)
    (h1 : env.imagePick = PickerOutcome.cancelled)
    (h2 : env.filePick = PickerOutcome.cancelled)
    (h3 : env.cameraPick = PickerOutcome.cancelled) :
    handleMessage env (BridgePayload.jsonWithType "pickImage") = [] ∧
    handleMessage env (BridgePayload.jsonWithType "pickFile") = [] ∧
    handleMessage env (BridgePayload.jsonWithType "takePhoto") = [] := by
  rcases env with ⟨ip, fp, cp, ref⟩
  obtain rfl : ip = PickerOutcome.cancelled := h1
  obtain rfl : fp = PickerOutcome.cancelled := h2
  obtain rfl : cp = PickerOutcome.cancelled := h3
  cases ref <;> decide

/-- Witness for C8 with every picker cancelled. -/
theorem bridge_cancel_noop_witness :
    handleMessage
        ⟨PickerOutcome.cancelled, PickerOutcome.cancelled, PickerOutcome.cancelled, true⟩
        (BridgePayload.jsonWithType "pickImage") = [] ∧
    handleMessage
        ⟨PickerOutcome.cancelled, PickerOutcome.cancelled, PickerOutcome.cancelled, true⟩
        (BridgePayload.jsonWithType "pickFile") = [] ∧
    handleMessage
        ⟨PickerOutcome.cancelled, PickerOutcome.cancelled, PickerOutcome.cancelled, true⟩
        (BridgePayload.jsonWithType "takePhoto") = [] :=
  bridge_cancel_noop
    ⟨PickerOutcome.cancelled, PickerOutcome.cancelled, PickerOutcome.cancelled, true⟩
    rfl rfl rfl

/-- C10: every BridgeResponse injection in any `handleMessage` trace posts
to the wildcard target origin '*' (so whatever document is loaded in the
surface receives the picker result), and a fileSelected injection always
carries a name. -/
theorem bridge_inject_wildcard_origin (env : BridgeEnv) (payload : BridgePayload)
    (ty uri : String) (nm : Option String) (origin : String)
    (h : MsgEvent.inject ty uri nm origin ∈ handleMessage env payload) :
    origin = "*" ∧ (ty = "fileSelected" → ∃ n, nm = some n) := by
  rcases env with ⟨ip, fp, cp, ref⟩
  rcases payload with _ | pty | _
  · simp [handleMessage] at h
  · by_cases hi : pty = "pickImage"
    · cases ref
      · rcases ip with _ | _ | _ | ⟨u, n⟩ <;> simp [handleMessage, hi] at h
      · rcases ip with _ | _ | _ | ⟨u, n⟩ <;> simp [handleMessage, hi] at h
        obtain ⟨rfl, rfl, rfl, rfl⟩ := h
        exact ⟨rfl, fun hh => absurd hh (by decide)⟩
    · by_cases hf : pty = "pickFile"
      · cases ref
        · rcases fp with _ | _ | _ | ⟨u, n⟩ <;> simp [handleMessage, hi, hf] at h
        · rcases fp with _ | _ | _ | ⟨u, n⟩ <;> simp [handleMessage, hi, hf] at h
          obtain ⟨rfl, rfl, rfl, rfl⟩ := h
          exact ⟨rfl, fun _ => ⟨n, rfl⟩⟩
      · by_cases hc : pty = "takePhoto"
        · cases ref
          · rcases cp with _ | _ | _ | ⟨u, n⟩ <;> simp [handleMessage, hi, hf, hc] at h
          · rcases cp with _ | _ | _ | ⟨u, n⟩ <;> simp [handleMessage, hi, hf, hc] at h
            obtain ⟨rfl, rfl, rfl, rfl⟩ := h
            exact ⟨rfl, fun hh => absurd hh (by decide)⟩
        · simp [handleMessage, hi, hf, hc] at h
  · simp [handleMessage] at h

/-- Witness for C10 on a concrete fileSelected injection. -/
theorem bridge_inject_wildcard_origin_witness :
    "*" = "*" ∧
    ("fileSelected" = "fileSelected" →
      ∃ n, (some "invoice.pdf" : Option String) = some n) :=
  bridge_inject_wildcard_origin
    ⟨PickerOutcome.cancelled, PickerOutcome.picked "file:///cache/doc" "invoice.pdf",
      PickerOutcome.cancelled, true⟩
    (BridgePayload.jsonWithType "pickFile")
    "fileSelected" "file:///cache/doc" (some "invoice.pdf") "*"
    (by decide)

/-- C9 counterexample: when the storage/media permission request throws,
the camera request is never issued at all — the single try/catch wrapping
all three requests aborts to the catch block, contradicting the claim that
a thrown request does not block requesting the next. -/
theorem perm_throw_blocks_next_counterexample :
    PermEvent.request "camera" ∉
      requestPermissions ⟨PermRes.thrown, PermRes.granted, PermRes.granted⟩ ∧
    requestPermissions ⟨PermRes.thrown, PermRes.granted, PermRes.granted⟩ =
      [PermEvent.request "mediaLibrary", PermEvent.logCaught] := by
  decide

/-- C9 amended: the gate requests storage/media first and then, in order,
camera and media-library; a denial of one request never blocks the next
and no exception escapes (a thrown request lands in the catch and is only
logged), but a thrown request does abort the remaining requests; a storage
denial emits the Error toast, and a storage grant emits the Success toast
provided no later request throws. -/
theorem perm_requests_amended (env : PermEnv) :
    (requestPermissions env).head? = some (PermEvent.request "mediaLibrary") ∧
    (env.media ≠ PermRes.thrown →
      PermEvent.request "camera" ∈ requestPermissions env) ∧
    (env.media ≠ PermRes.thrown → env.camera ≠ PermRes.thrown →
      PermEvent.request "mediaPicker" ∈ requestPermissions env) ∧
    (env.media = PermRes.thrown →
      requestPermissions env = [PermEvent.request "mediaLibrary", PermEvent.logCaught]) ∧
    (env.media = PermRes.denied →
      PermEvent.toast "Storage permission needed to save files" Severity.error ∈
        requestPermissions env) ∧
    (env.media = PermRes.granted → env.camera ≠ PermRes.thrown →
        env.mediaPicker ≠ PermRes.thrown →
      PermEvent.toast "Ready to use CSMS" Severity.success ∈ requestPermissions env) ∧
    List.Sublist ((requestPermissions env).filter isPermRequest)
      [PermEvent.request "mediaLibrary", PermEvent.request "camera",
        PermEvent.request "mediaPicker"] := by
  rcases env with ⟨a, b, c⟩
  cases a <;> cases b <;> cases c <;> decide

/-- Witness for C9's amended theorem: a storage denial still issues the
camera request. -/
theorem perm_requests_amended_witness :
    PermEvent.request "camera" ∈
      requestPermissions ⟨PermRes.denied, PermRes.granted, PermRes.granted⟩ :=
  (perm_requests_amended ⟨PermRes.denied, PermRes.granted, PermRes.granted⟩).2.1
    (by decide)

end CSMS
